import Mathlib

/-!
Verification of the cache/TTL subsystem (`src/cache_manager.py`) and the
retry/backoff and client-fetch layer (`src/garmin_client.py`) of the
garmin-training-analyzer repository, as a shallow embedding.

Modelling conventions:
* Timestamps are natural numbers.  The Python code stores
  `datetime.isoformat()` strings and compares them either as parsed
  datetimes (`get_*`) or lexicographically in SQL (`clear_expired`,
  `get_cache_stats`); both orders agree with the chronological order, so a
  single `Nat` clock is faithful.  TTLs are whole hours; one time unit is
  one hour.
* JSON payloads are modelled by the inductive `JVal`.  The SQLite TEXT
  column holds `json.dumps(payload)`; since `json.dumps` is injective on
  the payloads involved and `json.loads` is its left inverse, the model
  stores the `JVal` itself in the `data` field.
* Each SQLite table is an association list keyed by the cache key; the
  PRIMARY KEY constraint together with INSERT OR REPLACE keeps keys unique.
* Logging calls are modelled only where a claim observes them (the client
  layer), as a list of emitted log levels; `CacheManager`-internal log
  lines and the retry wrapper's diagnostics are pure observability and are
  omitted.
* `time.sleep` and the backoff delays are real-time effects with no
  bearing on control flow and are not modelled.
-/

/-- A JSON-like Python value: the payloads, API responses and profile
dictionaries that flow through the cache and the client. -/
inductive JVal : Type where
  | null : JVal
  | bool : Bool → JVal
  | num : Int → JVal
  | str : String → JVal
  | list : List JVal → JVal
  | dict : List (String × JVal) → JVal

/-- Python truthiness of a `JVal` (`bool(x)`): empty containers, empty
strings, zero, `None` and `False` are falsy. -/
def JVal.truthy : JVal → Bool
  | .null => false
  | .bool b => b
  | .num n => decide (n ≠ 0)
  | .str s => decide (s ≠ "")
  | .list xs => !xs.isEmpty
  | .dict fs => !fs.isEmpty

/-- Python `len(x)` is defined for sized objects only (`str`, `list`,
`dict` here); calling it on anything else raises `TypeError`. -/
def JVal.hasLen : JVal → Bool
  | .str _ => true
  | .list _ => true
  | .dict _ => true
  | _ => false

namespace CacheManager

/-- The comparison Python's `sorted` uses on `params.items()`: tuples of
strings compare lexicographically (first component, then second). -/
def pairLe (a b : String × String) : Bool :=
  decide (a.1 < b.1 ∨ (a.1 = b.1 ∧ a.2 ≤ b.2))

/-- `CacheManager._generate_cache_key`: joins the sorted `key=value`
pairs with underscores and prefixes the data type, giving
`data_type:k1=v1_k2=v2`. -/
def generate_cache_key (data_type : String) (params : List (String × String)) : String :=
  let param_str := String.intercalate "_"
    ((params.mergeSort pairLe).map (fun p => p.1 ++ "=" ++ p.2))
  data_type ++ ":" ++ param_str

/-- One row of a cache table: the TEXT `data` column (held as the decoded
payload, see the module comment), and the `created_at` / `expires_at`
timestamps. -/
structure CacheEntry : Type where
  data : JVal
  created_at : Nat
  expires_at : Nat

/-- A cache table: an association list from cache key to row, with the
cache key as primary key. -/
abbrev Table : Type := List (String × CacheEntry)

/-- The persistent state of a `CacheManager`: the three SQLite tables
plus the configured TTL in hours. -/
structure CacheState : Type where
  activities_cache : Table
  body_composition_cache : Table
  user_profile_cache : Table
  ttl_hours : Nat

/-- `CacheManager.__init__` with a fresh cache directory: three empty
tables and the configured `ttl_hours`. -/
def init (ttl_hours : Nat) : CacheState :=
  ⟨[], [], [], ttl_hours⟩

/-- `SELECT data, expires_at FROM t WHERE cache_key = ?` — at most one
row, by the PRIMARY KEY constraint. -/
def Table.lookup (t : Table) (key : String) : Option CacheEntry :=
  (List.find? (fun p => p.1 = key) t).map (fun p => p.2)

/-- `INSERT OR REPLACE` of a row: any previous row with the same key is
replaced. -/
def Table.upsert (t : Table) (key : String) (e : CacheEntry) : Table :=
  (key, e) :: List.filter (fun p => !(p.1 = key)) t

/-- `DELETE FROM t WHERE cache_key = ?`. -/
def Table.deleteKey (t : Table) (key : String) : Table :=
  List.filter (fun p => !(p.1 = key)) t

/-- The generic body shared by the three `get_*` read paths: on a hit the
row is returned only while `now < expires_at`; an expired row is deleted
as a side effect of the read; a miss returns `none` and leaves the table
unchanged. -/
def Table.readValid (t : Table) (key : String) (now : Nat) : Table × Option JVal :=
  match Table.lookup t key with
  | none => (t, none)
  | some e =>
    if now < e.expires_at then (t, some e.data)
    else (Table.deleteKey t key, none)

/-- `CacheManager.get_activities`: derives the key from the
`start_date` / `end_date` kwargs and performs the validated read on the
activities table. -/
def get_activities (now : Nat) (st : CacheState) (start_date end_date : String) :
    CacheState × Option JVal :=
  let key := generate_cache_key "activities"
    [("start_date", start_date), ("end_date", end_date)]
  let r := Table.readValid st.activities_cache key now
  ({ st with activities_cache := r.1 }, r.2)

/-- `CacheManager.set_activities`: upserts the row with
`created_at = now` and `expires_at = now + ttl_hours`. -/
def set_activities (now : Nat) (st : CacheState) (start_date end_date : String)
    (activities : JVal) : CacheState :=
  let key := generate_cache_key "activities"
    [("start_date", start_date), ("end_date", end_date)]
  { st with activities_cache :=
      Table.upsert st.activities_cache key ⟨activities, now, now + st.ttl_hours⟩ }

/-- `CacheManager.get_body_composition`: same read path on the
body-composition table. -/
def get_body_composition (now : Nat) (st : CacheState) (start_date end_date : String) :
    CacheState × Option JVal :=
  let key := generate_cache_key "body_composition"
    [("start_date", start_date), ("end_date", end_date)]
  let r := Table.readValid st.body_composition_cache key now
  ({ st with body_composition_cache := r.1 }, r.2)

/-- `CacheManager.set_body_composition`: upserts with the base TTL. -/
def set_body_composition (now : Nat) (st : CacheState) (start_date end_date : String)
    (composition : JVal) : CacheState :=
  let key := generate_cache_key "body_composition"
    [("start_date", start_date), ("end_date", end_date)]
  { st with body_composition_cache :=
      Table.upsert st.body_composition_cache key ⟨composition, now, now + st.ttl_hours⟩ }

/-- `CacheManager.get_user_profile`: keyed by `user_id` only. -/
def get_user_profile (now : Nat) (st : CacheState) (user_id : String) :
    CacheState × Option JVal :=
  let key := generate_cache_key "profile" [("user_id", user_id)]
  let r := Table.readValid st.user_profile_cache key now
  ({ st with user_profile_cache := r.1 }, r.2)

/-- `CacheManager.set_user_profile`: the profile TTL is `ttl_hours * 7`
(profiles expire more slowly). -/
def set_user_profile (now : Nat) (st : CacheState) (profile : JVal)
    (user_id : String) : CacheState :=
  let key := generate_cache_key "profile" [("user_id", user_id)]
  { st with user_profile_cache :=
      Table.upsert st.user_profile_cache key ⟨profile, now, now + st.ttl_hours * 7⟩ }

/-- `DELETE FROM t WHERE expires_at < ?` with `? = now`: the rows kept
are those with `now ≤ expires_at`.  The comparison in the source is
strict (`<`), so a row with `expires_at = now` survives. -/
def Table.deleteExpired (t : Table) (now : Nat) : Table :=
  List.filter (fun p => !(p.2.expires_at < now)) t

/-- `cursor.rowcount` of that DELETE: how many rows it removed. -/
def Table.deletedCount (t : Table) (now : Nat) : Nat :=
  (List.filter (fun p => p.2.expires_at < now) t).length

/-- `CacheManager.clear_expired`: deletes every row with
`expires_at < now` from all three tables.  The deleted row counts feed
only a log line; the Python function body has no `return` statement, so
its value is always `None` — modelled as the `Option Nat` component,
which is always `none`. -/
def clear_expired (now : Nat) (st : CacheState) : CacheState × Option Nat :=
  (⟨Table.deleteExpired st.activities_cache now,
    Table.deleteExpired st.body_composition_cache now,
    Table.deleteExpired st.user_profile_cache now,
    st.ttl_hours⟩, none)

/-- `CacheManager.clear_all`: empties all three tables. -/
def clear_all (st : CacheState) : CacheState :=
  ⟨[], [], [], st.ttl_hours⟩

/-- The `{total, valid, expired}` triple `get_cache_stats` reports for
one table. -/
structure CategoryStats : Type where
  total : Nat
  valid : Nat
  expired : Nat

/-- Per-table counts: `COUNT(*)` and `COUNT(*) WHERE expires_at > now`;
`expired` is their difference. -/
def Table.stats (t : Table) (now : Nat) : CategoryStats :=
  let total := t.length
  let valid := (List.filter (fun p => now < p.2.expires_at) t).length
  ⟨total, valid, total - valid⟩

/-- The dictionary returned by `get_cache_stats` (the filesystem fields
`cache_dir` and `db_size_bytes` are outside the model). -/
structure CacheStats : Type where
  activities : CategoryStats
  body_composition : CategoryStats
  user_profiles : CategoryStats
  ttl_hours : Nat

/-- `CacheManager.get_cache_stats`: read-only snapshot of the three
tables at time `now`. -/
def get_cache_stats (now : Nat) (st : CacheState) : CacheStats :=
  ⟨Table.stats st.activities_cache now,
   Table.stats st.body_composition_cache now,
   Table.stats st.user_profile_cache now,
   st.ttl_hours⟩

end CacheManager

/-- Log levels of the `logging` calls the client layer emits. -/
inductive LogLevel : Type where
  | debug : LogLevel
  | info : LogLevel
  | warning : LogLevel
  | error : LogLevel
deriving DecidableEq

namespace GarminClient

/-- The retry loop of `retry_with_backoff` (`for attempt in
range(max_retries + 1)`), with the wrapped operation modelled as a
function from the attempt index to an outcome.  `attempt` is the
0-based index of the current attempt and `remaining` the number of
retries still allowed after it (`attempt < max_retries` in the source
corresponds to `remaining ≠ 0`).  Returns the Python outcome (the
returned value, or the re-raised last exception) together with the
number of invocations of the wrapped operation.  The sleep and the
growing delay between attempts do not affect control flow and are not
modelled. -/
def retryRun {E α : Type} (f : Nat → Except E α) :
    Nat → Nat → Except E α × Nat
  | attempt, 0 =>
    match f attempt with
    | Except.ok a => (Except.ok a, 1)
    | Except.error e => (Except.error e, 1)
  | attempt, remaining + 1 =>
    match f attempt with
    | Except.ok a => (Except.ok a, 1)
    | Except.error _ =>
      let r := retryRun f (attempt + 1) remaining
      (r.1, r.2 + 1)

/-- `retry_with_backoff(max_retries)` applied to an operation: start at
attempt 0 with `max_retries` retries allowed after it. -/
def retry_with_backoff {E α : Type} (max_retries : Nat) (f : Nat → Except E α) :
    Except E α × Nat :=
  retryRun f 0 max_retries

/-- What a client data-fetch returns to its caller, together with its
observable effects: the cache state afterwards (`self.cache`, `None`
when caching is disabled), the returned Python value, how many times the
remote API operation was invoked, and the client-level log lines emitted
(by level, in order). -/
structure FetchOutcome : Type where
  cache : Option CacheManager.CacheState
  result : JVal
  apiCalls : Nat
  logs : List LogLevel

/-- The keys `get_body_composition` probes for in a mapping response, in
order. -/
def knownBodyCompKeys : List String :=
  ["dateWeightList", "dailyWeightSummaries", "weightList"]

/-- The response-normalisation step of `GarminClient.get_body_composition`
(the `# FIX: Garmin puede devolver dict o list` block).  For a truthy
mapping: take the value under the first known key present; log its
length (`TypeError`, hence `Except.error`, when that value has no
length); if the obtained `measurements` is falsy, log the
unknown-structure warning and wrap the whole mapping as a one-element
list.  A sequence is returned as-is; any other truthy value yields an
empty list with a warning; a falsy response yields an empty list. -/
def bodyCompUnwrap (composition : JVal) : Except Unit (JVal × List LogLevel) :=
  if composition.truthy then
    match composition with
    | JVal.dict fields =>
      match List.findSome?
          (fun k => (List.find? (fun p => p.1 = k) fields).map (fun p => p.2))
          knownBodyCompKeys with
      | some v =>
        if v.hasLen then
          if v.truthy then Except.ok (v, [LogLevel.info])
          else Except.ok (JVal.list [composition], [LogLevel.info, LogLevel.warning])
        else Except.error ()
      | none => Except.ok (JVal.list [composition], [LogLevel.warning])
    | JVal.list _ => Except.ok (composition, [LogLevel.info])
    | _ => Except.ok (JVal.list [], [LogLevel.warning])
  else Except.ok (JVal.list [], [LogLevel.info])

/-- The `try` block of `GarminClient.get_activities` after a cache miss:
fetch through `retry_with_backoff(max_retries=3)`, cache the result only
when caching is on and the result is truthy (non-empty), and return it;
on exhausted retries the outer `except` logs an error and returns
`[]`. -/
def fetchActivitiesRemote (use_cache : Bool) (cache : Option CacheManager.CacheState)
    (now : Nat) (start_str end_str : String) (api : Nat → Except Unit JVal) :
    FetchOutcome :=
  match retry_with_backoff 3 api with
  | (Except.ok activities, n) =>
    if use_cache && cache.isSome && activities.truthy then
      ⟨cache.map (fun c => CacheManager.set_activities now c start_str end_str activities),
       activities, n, [LogLevel.info, LogLevel.info]⟩
    else ⟨cache, activities, n, [LogLevel.info, LogLevel.info]⟩
  | (Except.error _, n) => ⟨cache, JVal.list [], n, [LogLevel.info, LogLevel.error]⟩

/-- `GarminClient.get_activities`: disconnected clients log an error and
return `[]`; otherwise try the cache first (only when `use_cache` and a
cache object exist) and fall through to the remote fetch on a miss. -/
def get_activities (connected use_cache : Bool) (cache : Option CacheManager.CacheState)
    (now : Nat) (start_str end_str : String) (api : Nat → Except Unit JVal) :
    FetchOutcome :=
  if !connected then ⟨cache, JVal.list [], 0, [LogLevel.error]⟩
  else
    match (if use_cache then cache else none) with
    | some c =>
      let r := CacheManager.get_activities now c start_str end_str
      match r.2 with
      | some v => ⟨some r.1, v, 0, []⟩
      | none => fetchActivitiesRemote use_cache (some r.1) now start_str end_str api
    | none => fetchActivitiesRemote use_cache cache now start_str end_str api

/-- The `try` block of `GarminClient.get_body_composition` after a cache
miss: fetch with retry, normalise the shape with `bodyCompUnwrap`, cache
only truthy results; any exception (exhausted retries, or the
`TypeError` from the normalisation) is absorbed by the outer `except`,
which logs a warning and returns `[]`. -/
def fetchBodyCompRemote (use_cache : Bool) (cache : Option CacheManager.CacheState)
    (now : Nat) (start_str end_str : String) (api : Nat → Except Unit JVal) :
    FetchOutcome :=
  match retry_with_backoff 3 api with
  | (Except.ok composition, n) =>
    match bodyCompUnwrap composition with
    | Except.ok (measurements, ls) =>
      if use_cache && cache.isSome && measurements.truthy then
        ⟨cache.map (fun c => CacheManager.set_body_composition now c start_str end_str measurements),
         measurements, n, LogLevel.info :: ls⟩
      else ⟨cache, measurements, n, LogLevel.info :: ls⟩
    | Except.error _ => ⟨cache, JVal.list [], n, [LogLevel.info, LogLevel.warning]⟩
  | (Except.error _, n) => ⟨cache, JVal.list [], n, [LogLevel.info, LogLevel.warning]⟩

/-- `GarminClient.get_body_composition`: disconnected clients log an
error and return `[]`; otherwise cache first, then the remote fetch with
shape normalisation. -/
def get_body_composition (connected use_cache : Bool)
    (cache : Option CacheManager.CacheState) (now : Nat) (start_str end_str : String)
    (api : Nat → Except Unit JVal) : FetchOutcome :=
  if !connected then ⟨cache, JVal.list [], 0, [LogLevel.error]⟩
  else
    match (if use_cache then cache else none) with
    | some c =>
      let r := CacheManager.get_body_composition now c start_str end_str
      match r.2 with
      | some v => ⟨some r.1, v, 0, []⟩
      | none => fetchBodyCompRemote use_cache (some r.1) now start_str end_str api
    | none => fetchBodyCompRemote use_cache cache now start_str end_str api

/-- The `try` block of `GarminClient.get_user_profile` after a cache
miss: a single un-retried remote call builds the profile dictionary; on
failure a warning is logged and a hard-coded default profile is
returned; truthy profiles are cached under user id `default`. -/
def profileRemote (use_cache : Bool) (cache : Option CacheManager.CacheState)
    (now : Nat) (api : Except Unit JVal) : FetchOutcome :=
  match api with
  | Except.ok profile =>
    if use_cache && cache.isSome && profile.truthy then
      ⟨cache.map (fun c => CacheManager.set_user_profile now c profile "default"),
       profile, 1, [LogLevel.info, LogLevel.info]⟩
    else ⟨cache, profile, 1, [LogLevel.info, LogLevel.info]⟩
  | Except.error _ =>
    ⟨cache,
     JVal.dict [("name", JVal.str "Usuario"), ("unit_system", JVal.str "metric")],
     1, [LogLevel.info, LogLevel.warning]⟩

/-- `GarminClient.get_user_profile`: a disconnected client returns `{}`
silently (no log call on that path in the source); otherwise cache
first, then the remote fetch. -/
def get_user_profile (connected use_cache : Bool)
    (cache : Option CacheManager.CacheState) (now : Nat) (api : Except Unit JVal) :
    FetchOutcome :=
  if !connected then ⟨cache, JVal.dict [], 0, []⟩
  else
    match (if use_cache then cache else none) with
    | some c =>
      let r := CacheManager.get_user_profile now c "default"
      match r.2 with
      | some v => ⟨some r.1, v, 0, []⟩
      | none => profileRemote use_cache (some r.1) now api
    | none => profileRemote use_cache cache now api

end GarminClient

/-- The comparison the spec describes for key derivation: pairs ordered
by parameter name alone ("sorted by key", "lexicographic order of
parameter name"). -/
def fstLe (a b : String × String) : Bool :=
  decide (a.1 ≤ b.1)

/-- The cache key as the spec words it: the category name prefixed to
the `key=value` pairs joined in lexicographic order of parameter name.
To be compared with `CacheManager.generate_cache_key`, which sorts by
the whole `(key, value)` tuple. -/
def cache_key_spec (category : String) (params : List (String × String)) : String :=
  category ++ ":" ++ String.intercalate "_"
    ((params.mergeSort fstLe).map (fun p => p.1 ++ "=" ++ p.2))

/-- Unfolding lemma: an attempt with no retries left returns whatever the
operation produced, after exactly one invocation. -/
theorem retryRun_zero {E α : Type} (f : Nat → Except E α) (attempt : Nat) :
    GarminClient.retryRun f attempt 0 =
      (match f attempt with
       | Except.ok a => (Except.ok a, 1)
       | Except.error e => (Except.error e, 1)) := by
  simp only [GarminClient.retryRun]

/-- Unfolding lemma: an attempt with retries left returns a success
immediately and otherwise recurses with one more recorded invocation. -/
theorem retryRun_succ {E α : Type} (f : Nat → Except E α) (attempt remaining : Nat) :
    GarminClient.retryRun f attempt (remaining + 1) =
      (match f attempt with
       | Except.ok a => (Except.ok a, 1)
       | Except.error _ =>
         ((GarminClient.retryRun f (attempt + 1) remaining).1,
          (GarminClient.retryRun f (attempt + 1) remaining).2 + 1)) := by
  conv_lhs => rw [GarminClient.retryRun]

/-- Claim C2: a wrapped operation that raises on every invocation, run
through `retry_with_backoff` with `max_retries = 3`, is invoked exactly
4 times (1 initial attempt + 3 retries), and the exception of the last
attempt is re-raised to the caller unchanged. -/
theorem retry_exhaustion_invokes_four_times {E α : Type} (f : Nat → Except E α)
    (hfail : ∀ i, ∃ e, f i = Except.error e) :
    (GarminClient.retry_with_backoff 3 f).2 = 4 ∧
    ∃ e, f 3 = Except.error e ∧
      (GarminClient.retry_with_backoff 3 f).1 = Except.error e := by
  obtain ⟨e0, h0⟩ := hfail 0
  obtain ⟨e1, h1⟩ := hfail 1
  obtain ⟨e2, h2⟩ := hfail 2
  obtain ⟨e3, h3⟩ := hfail 3
  have hrun : GarminClient.retry_with_backoff 3 f = (Except.error e3, 4) := by
    show GarminClient.retryRun f 0 (2 + 1) = _
    rw [retryRun_succ, h0]
    show ((GarminClient.retryRun f 1 (1 + 1)).1,
          (GarminClient.retryRun f 1 (1 + 1)).2 + 1) = _
    rw [retryRun_succ, h1]
    show ((GarminClient.retryRun f 2 (0 + 1)).1,
          ((GarminClient.retryRun f 2 (0 + 1)).2 + 1) + 1) = _
    rw [retryRun_succ, h2]
    show ((GarminClient.retryRun f 3 0).1,
          (((GarminClient.retryRun f 3 0).2 + 1) + 1) + 1) = _
    rw [retryRun_zero, h3]
  exact ⟨by rw [hrun], e3, h3, by rw [hrun]⟩

/-- Witness for C2 at the operation that fails with its attempt index:
4 invocations and the exception of attempt 3 re-raised. -/
theorem retry_exhaustion_invokes_four_times_witness :
    (GarminClient.retry_with_backoff 3 (fun i => (Except.error i : Except Nat Nat))).2 = 4 ∧
    ∃ e, (fun i => (Except.error i : Except Nat Nat)) 3 = Except.error e ∧
      (GarminClient.retry_with_backoff 3 (fun i => (Except.error i : Except Nat Nat))).1 =
        Except.error e :=
  retry_exhaustion_invokes_four_times _ (fun i => ⟨i, rfl⟩)

/-- Claim C5: an operation that fails on its first two invocations and
succeeds on the third, wrapped with `max_retries = 3`, returns the
success value after exactly 3 invocations; moreover a success on the
very first attempt, for any retry budget, returns immediately after a
single invocation. -/
theorem retry_success_after_failures {E α : Type} :
    (∀ (f : Nat → Except E α) (v : α),
       (∃ e, f 0 = Except.error e) → (∃ e, f 1 = Except.error e) →
       f 2 = Except.ok v →
       GarminClient.retry_with_backoff 3 f = (Except.ok v, 3)) ∧
    (∀ (max_retries : Nat) (f : Nat → Except E α) (v : α),
       f 0 = Except.ok v →
       GarminClient.retry_with_backoff max_retries f = (Except.ok v, 1)) := by
  constructor
  · intro f v h0e h1e h2
    obtain ⟨e0, h0⟩ := h0e
    obtain ⟨e1, h1⟩ := h1e
    show GarminClient.retryRun f 0 (2 + 1) = _
    rw [retryRun_succ, h0]
    show ((GarminClient.retryRun f 1 (1 + 1)).1,
          (GarminClient.retryRun f 1 (1 + 1)).2 + 1) = _
    rw [retryRun_succ, h1]
    show ((GarminClient.retryRun f 2 (0 + 1)).1,
          ((GarminClient.retryRun f 2 (0 + 1)).2 + 1) + 1) = _
    rw [retryRun_succ, h2]
  · intro max_retries f v h0
    cases max_retries with
    | zero => show GarminClient.retryRun f 0 0 = _; rw [retryRun_zero, h0]
    | succ n => show GarminClient.retryRun f 0 (n + 1) = _; rw [retryRun_succ, h0]

/-- `pairLe` decides the lexicographic order on `(key, value)` pairs. -/
theorem pairLe_iff (a b : String × String) :
    CacheManager.pairLe a b = true ↔ (a.1 < b.1 ∨ (a.1 = b.1 ∧ a.2 ≤ b.2)) := by
  simp [CacheManager.pairLe]

/-- The tuple order is transitive. -/
theorem pairLe_trans (a b c : String × String)
    (hab : CacheManager.pairLe a b = true) (hbc : CacheManager.pairLe b c = true) :
    CacheManager.pairLe a c = true := by
  rw [pairLe_iff] at hab hbc ⊢
  rcases hab with h1 | ⟨h1, h1v⟩ <;> rcases hbc with h2 | ⟨h2, h2v⟩
  · exact Or.inl (lt_trans h1 h2)
  · exact Or.inl (h2 ▸ h1)
  · exact Or.inl (h1 ▸ h2)
  · exact Or.inr ⟨h1.trans h2, le_trans h1v h2v⟩

/-- The tuple order is total. -/
theorem pairLe_total (a b : String × String) :
    (CacheManager.pairLe a b || CacheManager.pairLe b a) = true := by
  rw [Bool.or_eq_true, pairLe_iff, pairLe_iff]
  rcases lt_trichotomy a.1 b.1 with h | h | h
  · exact Or.inl (Or.inl h)
  · rcases le_total a.2 b.2 with hv | hv
    · exact Or.inl (Or.inr ⟨h, hv⟩)
    · exact Or.inr (Or.inr ⟨h.symm, hv⟩)
  · exact Or.inr (Or.inl h)

/-- The tuple order is antisymmetric. -/
theorem pairLe_antisymm (a b : String × String)
    (hab : CacheManager.pairLe a b = true) (hba : CacheManager.pairLe b a = true) :
    a = b := by
  rw [pairLe_iff] at hab hba
  rcases hab with h1 | ⟨h1, h1v⟩ <;> rcases hba with h2 | ⟨h2, h2v⟩
  · exact absurd h2 (not_lt_of_lt h1)
  · exact absurd h1 (h2 ▸ lt_irrefl b.1)
  · exact absurd h2 (h1 ▸ lt_irrefl a.1)
  · exact Prod.ext h1 (le_antisymm h1v h2v)

/-- With pairwise-distinct parameter names (always the case for Python
keyword arguments), sorting by the whole tuple and sorting by the name
alone produce the same list. -/
theorem mergeSort_pairLe_eq_fstLe (ps : List (String × String))
    (hnd : (ps.map Prod.fst).Nodup) :
    ps.mergeSort CacheManager.pairLe = ps.mergeSort fstLe := by
  have hne : List.Pairwise (fun a b : String × String => a.1 ≠ b.1) ps :=
    List.pairwise_map.mp hnd
  have hnsym : ∀ {x y : String × String}, x.1 ≠ y.1 → y.1 ≠ x.1 :=
    fun h => h.symm
  have hp1 := List.mergeSort_perm ps CacheManager.pairLe
  have hp2 := List.mergeSort_perm ps fstLe
  have hne1 : List.Pairwise (fun a b : String × String => a.1 ≠ b.1)
      (ps.mergeSort CacheManager.pairLe) :=
    (List.Perm.pairwise_iff hnsym hp1).mpr hne
  have hne2 : List.Pairwise (fun a b : String × String => a.1 ≠ b.1)
      (ps.mergeSort fstLe) :=
    (List.Perm.pairwise_iff hnsym hp2).mpr hne
  have hs1 := List.sorted_mergeSort pairLe_trans pairLe_total ps
  have hs2 : List.Pairwise (fun a b : String × String => fstLe a b = true)
      (ps.mergeSort fstLe) := by
    refine List.sorted_mergeSort ?_ ?_ ps
    · intro a b c hab hbc
      simp only [fstLe, decide_eq_true_eq] at hab hbc ⊢
      exact le_trans hab hbc
    · intro a b
      simp only [fstLe, Bool.or_eq_true, decide_eq_true_eq]
      exact le_total a.1 b.1
  have hlt1 : List.Pairwise (fun a b : String × String => a.1 < b.1)
      (ps.mergeSort CacheManager.pairLe) := by
    refine (hs1.and hne1).imp ?_
    intro a b hab
    rcases (pairLe_iff a b).mp hab.1 with h | ⟨h, _⟩
    · exact h
    · exact absurd h hab.2
  have hlt2 : List.Pairwise (fun a b : String × String => a.1 < b.1)
      (ps.mergeSort fstLe) := by
    refine (hs2.and hne2).imp ?_
    intro a b hab
    have hle : a.1 ≤ b.1 := by
      have := hab.1
      simpa [fstLe] using this
    exact lt_of_le_of_ne hle hab.2
  haveI : IsAntisymm (String × String) (fun a b => a.1 < b.1) :=
    ⟨fun a b h1 h2 => absurd h2 (not_lt_of_lt h1)⟩
  exact List.eq_of_perm_of_sorted (hp1.trans hp2.symm) hlt1 hlt2

/-- Claim C7: key derivation is deterministic and order-independent —
permuting the parameter list leaves the derived key unchanged, and for
parameter lists with distinct names (the only ones Python keyword
arguments can produce) the key is exactly the spec formula: category
name, then the `key=value` pairs joined in order of parameter name. -/
theorem cache_key_deterministic :
    (∀ (c : String) (ps qs : List (String × String)), ps.Perm qs →
       CacheManager.generate_cache_key c ps = CacheManager.generate_cache_key c qs) ∧
    (∀ (c : String) (ps : List (String × String)), (ps.map Prod.fst).Nodup →
       CacheManager.generate_cache_key c ps = cache_key_spec c ps) := by
  constructor
  · intro c ps qs hperm
    have hsorted : ps.mergeSort CacheManager.pairLe = qs.mergeSort CacheManager.pairLe := by
      haveI : IsAntisymm (String × String) (fun a b => CacheManager.pairLe a b = true) :=
        ⟨pairLe_antisymm⟩
      exact List.eq_of_perm_of_sorted
        (((List.mergeSort_perm ps _).trans hperm).trans (List.mergeSort_perm qs _).symm)
        (List.sorted_mergeSort pairLe_trans pairLe_total ps)
        (List.sorted_mergeSort pairLe_trans pairLe_total qs)
    unfold CacheManager.generate_cache_key
    rw [hsorted]
  · intro c ps hnd
    unfold CacheManager.generate_cache_key cache_key_spec
    rw [mergeSort_pairLe_eq_fstLe ps hnd]

/-- Witness for C7: the two orderings of `{a: 1, b: 2}` produce the same
key, and that key is the spec formula. -/
theorem cache_key_deterministic_witness :
    CacheManager.generate_cache_key "C" [("a", "1"), ("b", "2")] =
      CacheManager.generate_cache_key "C" [("b", "2"), ("a", "1")] ∧
    CacheManager.generate_cache_key "C" [("a", "1"), ("b", "2")] =
      cache_key_spec "C" [("a", "1"), ("b", "2")] :=
  ⟨cache_key_deterministic.1 "C" _ _ (by decide),
   cache_key_deterministic.2 "C" _ (by decide)⟩

/-- Witness for C5 at the operation failing twice then returning 42:
the wrapper returns 42 after 3 invocations, and an immediately
succeeding operation returns after one. -/
theorem retry_success_after_failures_witness :
    GarminClient.retry_with_backoff 3
      (fun i => if i < 2 then (Except.error () : Except Unit Nat) else Except.ok 42) =
      (Except.ok 42, 3) ∧
    GarminClient.retry_with_backoff 3
      (fun _ => (Except.ok 7 : Except Unit Nat)) = (Except.ok 7, 1) :=
  ⟨retry_success_after_failures.1 _ 42 ⟨(), rfl⟩ ⟨(), rfl⟩ rfl,
   retry_success_after_failures.2 3 _ 7 rfl⟩

/-- Reading back the key just upserted finds the new row. -/
theorem Table_lookup_upsert (t : CacheManager.Table) (key : String)
    (en : CacheManager.CacheEntry) :
    CacheManager.Table.lookup (CacheManager.Table.upsert t key en) key = some en := by
  simp [CacheManager.Table.lookup, CacheManager.Table.upsert, List.find?]

/-- Claim C4: in a store with strictly positive TTL, `set` followed by
`get` with the same parameters before expiration returns exactly the
stored payload, for each of the three categories; and a `get` whose key
has no row is a plain miss — it returns `none` and leaves the state
untouched, raising nothing. -/
theorem cache_set_get_round_trip
    (now t : Nat) (st : CacheManager.CacheState) (s e uid : String) (V : JVal)
    (hpos : 0 < st.ttl_hours) (ht : t < now + st.ttl_hours) :
    (CacheManager.get_activities t (CacheManager.set_activities now st s e V) s e).2 =
      some V ∧
    (CacheManager.get_body_composition t
      (CacheManager.set_body_composition now st s e V) s e).2 = some V ∧
    (CacheManager.get_user_profile t
      (CacheManager.set_user_profile now st V uid) uid).2 = some V ∧
    (∀ (st2 : CacheManager.CacheState) (s2 e2 : String),
       CacheManager.Table.lookup st2.activities_cache
         (CacheManager.generate_cache_key "activities"
           [("start_date", s2), ("end_date", e2)]) = none →
       CacheManager.get_activities t st2 s2 e2 = (st2, none)) := by
  have ht7 : t < now + st.ttl_hours * 7 := by
    have : now + st.ttl_hours ≤ now + st.ttl_hours * 7 :=
      Nat.add_le_add_left (Nat.le_mul_of_pos_right _ (by norm_num)) now
    exact lt_of_lt_of_le ht this
  refine ⟨?_, ?_, ?_, ?_⟩
  · simp [CacheManager.get_activities, CacheManager.set_activities,
      CacheManager.Table.readValid, Table_lookup_upsert, ht]
  · simp [CacheManager.get_body_composition, CacheManager.set_body_composition,
      CacheManager.Table.readValid, Table_lookup_upsert, ht]
  · simp [CacheManager.get_user_profile, CacheManager.set_user_profile,
      CacheManager.Table.readValid, Table_lookup_upsert, ht7]
  · intro st2 s2 e2 hmiss
    simp [CacheManager.get_activities, CacheManager.Table.readValid, hmiss]

/-- Witness for C4 at a concrete store with TTL 24: set then get at the
same instant round-trips, in each category, and a get against the empty
store is a plain miss. -/
theorem cache_set_get_round_trip_witness :
    (CacheManager.get_activities 0
      (CacheManager.set_activities 0 (CacheManager.init 24) "a" "b" (JVal.num 1))
      "a" "b").2 = some (JVal.num 1) ∧
    (CacheManager.get_body_composition 0
      (CacheManager.set_body_composition 0 (CacheManager.init 24) "a" "b" (JVal.num 1))
      "a" "b").2 = some (JVal.num 1) ∧
    (CacheManager.get_user_profile 0
      (CacheManager.set_user_profile 0 (CacheManager.init 24) (JVal.num 1) "u")
      "u").2 = some (JVal.num 1) ∧
    (∀ (st2 : CacheManager.CacheState) (s2 e2 : String),
       CacheManager.Table.lookup st2.activities_cache
         (CacheManager.generate_cache_key "activities"
           [("start_date", s2), ("end_date", e2)]) = none →
       CacheManager.get_activities 0 st2 s2 e2 = (st2, none)) :=
  cache_set_get_round_trip 0 0 (CacheManager.init 24) "a" "b" "u" (JVal.num 1)
    (by decide) (by decide)

/-- Claim C3: in a store constructed with TTL = 0 hours, a `set`
followed by a later (or simultaneous) `get` on the same parameters
misses: the read returns `none`, deletes the expired row as its side
effect (the state is the empty store again), and a subsequent `stats`
reports zero total entries for that category — for each of the three
categories. -/
theorem cache_ttl_zero_get_purges
    (t0 t1 t2 : Nat) (s e uid : String) (V : JVal) (h01 : t0 ≤ t1) :
    (CacheManager.get_activities t1
      (CacheManager.set_activities t0 (CacheManager.init 0) s e V) s e) =
      (CacheManager.init 0, none) ∧
    (CacheManager.get_cache_stats t2 (CacheManager.get_activities t1
      (CacheManager.set_activities t0 (CacheManager.init 0) s e V) s e).1).activities =
      ⟨0, 0, 0⟩ ∧
    (CacheManager.get_body_composition t1
      (CacheManager.set_body_composition t0 (CacheManager.init 0) s e V) s e) =
      (CacheManager.init 0, none) ∧
    (CacheManager.get_cache_stats t2 (CacheManager.get_body_composition t1
      (CacheManager.set_body_composition t0 (CacheManager.init 0) s e V) s e).1).body_composition =
      ⟨0, 0, 0⟩ ∧
    (CacheManager.get_user_profile t1
      (CacheManager.set_user_profile t0 (CacheManager.init 0) V uid) uid) =
      (CacheManager.init 0, none) ∧
    (CacheManager.get_cache_stats t2 (CacheManager.get_user_profile t1
      (CacheManager.set_user_profile t0 (CacheManager.init 0) V uid) uid).1).user_profiles =
      ⟨0, 0, 0⟩ := by
  have hnl : ¬ t1 < t0 := Nat.not_lt.mpr h01
  have ha : (CacheManager.get_activities t1
      (CacheManager.set_activities t0 (CacheManager.init 0) s e V) s e) =
      (CacheManager.init 0, none) := by
    simp [CacheManager.get_activities, CacheManager.set_activities, CacheManager.init,
      CacheManager.Table.readValid, CacheManager.Table.lookup, CacheManager.Table.upsert,
      CacheManager.Table.deleteKey, List.find?, hnl]
  have hb : (CacheManager.get_body_composition t1
      (CacheManager.set_body_composition t0 (CacheManager.init 0) s e V) s e) =
      (CacheManager.init 0, none) := by
    simp [CacheManager.get_body_composition, CacheManager.set_body_composition,
      CacheManager.init, CacheManager.Table.readValid, CacheManager.Table.lookup,
      CacheManager.Table.upsert, CacheManager.Table.deleteKey, List.find?, hnl]
  have hp : (CacheManager.get_user_profile t1
      (CacheManager.set_user_profile t0 (CacheManager.init 0) V uid) uid) =
      (CacheManager.init 0, none) := by
    simp [CacheManager.get_user_profile, CacheManager.set_user_profile,
      CacheManager.init, CacheManager.Table.readValid, CacheManager.Table.lookup,
      CacheManager.Table.upsert, CacheManager.Table.deleteKey, List.find?, hnl]
  refine ⟨ha, ?_, hb, ?_, hp, ?_⟩
  · rw [ha]; rfl
  · rw [hb]; rfl
  · rw [hp]; rfl

/-- Witness for C3 with writes at time 0 read at time 1: every category
comes back empty. -/
theorem cache_ttl_zero_get_purges_witness :
    (CacheManager.get_activities 1
      (CacheManager.set_activities 0 (CacheManager.init 0) "a" "b" (JVal.num 1)) "a" "b") =
      (CacheManager.init 0, none) ∧
    (CacheManager.get_cache_stats 1 (CacheManager.get_activities 1
      (CacheManager.set_activities 0 (CacheManager.init 0) "a" "b" (JVal.num 1)) "a" "b").1).activities =
      ⟨0, 0, 0⟩ ∧
    (CacheManager.get_body_composition 1
      (CacheManager.set_body_composition 0 (CacheManager.init 0) "a" "b" (JVal.num 1)) "a" "b") =
      (CacheManager.init 0, none) ∧
    (CacheManager.get_cache_stats 1 (CacheManager.get_body_composition 1
      (CacheManager.set_body_composition 0 (CacheManager.init 0) "a" "b" (JVal.num 1)) "a" "b").1).body_composition =
      ⟨0, 0, 0⟩ ∧
    (CacheManager.get_user_profile 1
      (CacheManager.set_user_profile 0 (CacheManager.init 0) (JVal.num 1) "u") "u") =
      (CacheManager.init 0, none) ∧
    (CacheManager.get_cache_stats 1 (CacheManager.get_user_profile 1
      (CacheManager.set_user_profile 0 (CacheManager.init 0) (JVal.num 1) "u") "u").1).user_profiles =
      ⟨0, 0, 0⟩ :=
  cache_ttl_zero_get_purges 0 1 1 "a" "b" "u" (JVal.num 1) (by decide)

/-- Claim C1 counterexample: with one valid entry (expires 10) and one
expired entry (expires 5 = now, so `expires_at <= now`) in the
activities category, `clear_expired` at time 5 deletes nothing (the SQL
comparison is strict) and returns `None` — not the claimed deleted
count 1. -/
theorem clear_expired_counterexample :
    CacheManager.clear_expired 5
      ⟨[("k1", ⟨JVal.null, 0, 10⟩), ("k2", ⟨JVal.null, 0, 5⟩)], [], [], 24⟩ =
      (⟨[("k1", ⟨JVal.null, 0, 10⟩), ("k2", ⟨JVal.null, 0, 5⟩)], [], [], 24⟩, none) ∧
    (none : Option Nat) ≠ some 1 := by
  exact ⟨rfl, by decide⟩

/-- Claim C1 as amended: for one valid entry (`now < expires_at`) and
one strictly expired entry (`expires_at < now`) in the activities
category (the other categories empty), `clear_expired` deletes exactly
the strictly expired entry and returns `None` (the function has no
return statement, so no count is reported); a second call without
intervening writes deletes nothing and returns `None` again; and the
valid entry remains retrievable by `get` afterward. -/
theorem clear_expired_amended
    (now ttl : Nat) (s e k2 : String) (e1 e2 : CacheManager.CacheEntry)
    (hvalid : now < e1.expires_at) (hexp : e2.expires_at < now) :
    let key1 := CacheManager.generate_cache_key "activities"
      [("start_date", s), ("end_date", e)]
    CacheManager.clear_expired now ⟨[(key1, e1), (k2, e2)], [], [], ttl⟩ =
      (⟨[(key1, e1)], [], [], ttl⟩, none) ∧
    CacheManager.clear_expired now ⟨[(key1, e1)], [], [], ttl⟩ =
      (⟨[(key1, e1)], [], [], ttl⟩, none) ∧
    (CacheManager.get_activities now ⟨[(key1, e1)], [], [], ttl⟩ s e).2 = some e1.data := by
  intro key1
  have h1 : ¬ e1.expires_at < now := Nat.not_lt.mpr (Nat.le_of_lt hvalid)
  refine ⟨?_, ?_, ?_⟩
  · simp [CacheManager.clear_expired, CacheManager.Table.deleteExpired, h1, hexp]
  · simp [CacheManager.clear_expired, CacheManager.Table.deleteExpired, h1]
  · simp [CacheManager.get_activities, CacheManager.Table.readValid,
      CacheManager.Table.lookup, List.find?, hvalid, key1]

/-- Witness for the amended C1 at a concrete mixed store at time 5. -/
theorem clear_expired_amended_witness :
    CacheManager.clear_expired 5
      ⟨[(CacheManager.generate_cache_key "activities"
           [("start_date", "sd"), ("end_date", "ed")], ⟨JVal.num 1, 0, 10⟩),
        ("zz", ⟨JVal.num 2, 0, 3⟩)], [], [], 24⟩ =
      (⟨[(CacheManager.generate_cache_key "activities"
           [("start_date", "sd"), ("end_date", "ed")], ⟨JVal.num 1, 0, 10⟩)],
        [], [], 24⟩, none) ∧
    CacheManager.clear_expired 5
      ⟨[(CacheManager.generate_cache_key "activities"
           [("start_date", "sd"), ("end_date", "ed")], ⟨JVal.num 1, 0, 10⟩)],
        [], [], 24⟩ =
      (⟨[(CacheManager.generate_cache_key "activities"
           [("start_date", "sd"), ("end_date", "ed")], ⟨JVal.num 1, 0, 10⟩)],
        [], [], 24⟩, none) ∧
    (CacheManager.get_activities 5
      ⟨[(CacheManager.generate_cache_key "activities"
           [("start_date", "sd"), ("end_date", "ed")], ⟨JVal.num 1, 0, 10⟩)],
        [], [], 24⟩ "sd" "ed").2 = some (JVal.num 1) :=
  clear_expired_amended 5 24 "sd" "ed" "zz" ⟨JVal.num 1, 0, 10⟩ ⟨JVal.num 2, 0, 3⟩
    (by decide) (by decide)

/-- Claim C8 counterexample: with TTL configured to 0 hours (an
admissible non-negative TTL, used by the repository's own tests), the
entry written by `set_activities` has `expires_at = created_at`, not
strictly greater. -/
theorem expires_at_counterexample :
    CacheManager.Table.lookup
      (CacheManager.set_activities 5 (CacheManager.init 0) "a" "b" JVal.null).activities_cache
      (CacheManager.generate_cache_key "activities"
        [("start_date", "a"), ("end_date", "b")]) = some ⟨JVal.null, 5, 5⟩ ∧
    ¬ (5 : Nat) < 5 := by
  refine ⟨?_, by decide⟩
  simp [CacheManager.set_activities, CacheManager.init, Table_lookup_upsert]

/-- Claim C8 as amended: every entry written by any of the three set
operations has `created_at ≤ expires_at`, and the inequality is strict
whenever the configured TTL is strictly positive (it is an equality
when the TTL is 0). -/
theorem expires_at_ge_created_at :
    (∀ (now : Nat) (st : CacheManager.CacheState) (s e uid : String) (V : JVal),
       CacheManager.Table.lookup
           (CacheManager.set_activities now st s e V).activities_cache
           (CacheManager.generate_cache_key "activities"
             [("start_date", s), ("end_date", e)]) =
         some ⟨V, now, now + st.ttl_hours⟩ ∧
       CacheManager.Table.lookup
           (CacheManager.set_body_composition now st s e V).body_composition_cache
           (CacheManager.generate_cache_key "body_composition"
             [("start_date", s), ("end_date", e)]) =
         some ⟨V, now, now + st.ttl_hours⟩ ∧
       CacheManager.Table.lookup
           (CacheManager.set_user_profile now st V uid).user_profile_cache
           (CacheManager.generate_cache_key "profile" [("user_id", uid)]) =
         some ⟨V, now, now + st.ttl_hours * 7⟩ ∧
       now ≤ now + st.ttl_hours ∧ now ≤ now + st.ttl_hours * 7) ∧
    (∀ (now : Nat) (st : CacheManager.CacheState) (s e uid : String) (V : JVal),
       0 < st.ttl_hours →
       (∀ en, CacheManager.Table.lookup
           (CacheManager.set_activities now st s e V).activities_cache
           (CacheManager.generate_cache_key "activities"
             [("start_date", s), ("end_date", e)]) = some en →
         en.created_at < en.expires_at) ∧
       (∀ en, CacheManager.Table.lookup
           (CacheManager.set_body_composition now st s e V).body_composition_cache
           (CacheManager.generate_cache_key "body_composition"
             [("start_date", s), ("end_date", e)]) = some en →
         en.created_at < en.expires_at) ∧
       (∀ en, CacheManager.Table.lookup
           (CacheManager.set_user_profile now st V uid).user_profile_cache
           (CacheManager.generate_cache_key "profile" [("user_id", uid)]) = some en →
         en.created_at < en.expires_at)) := by
  have hA : ∀ (now : Nat) (st : CacheManager.CacheState) (s e : String) (V : JVal),
      CacheManager.Table.lookup
          (CacheManager.set_activities now st s e V).activities_cache
          (CacheManager.generate_cache_key "activities"
            [("start_date", s), ("end_date", e)]) =
        some ⟨V, now, now + st.ttl_hours⟩ := by
    intro now st s e V
    simp [CacheManager.set_activities, Table_lookup_upsert]
  have hB : ∀ (now : Nat) (st : CacheManager.CacheState) (s e : String) (V : JVal),
      CacheManager.Table.lookup
          (CacheManager.set_body_composition now st s e V).body_composition_cache
          (CacheManager.generate_cache_key "body_composition"
            [("start_date", s), ("end_date", e)]) =
        some ⟨V, now, now + st.ttl_hours⟩ := by
    intro now st s e V
    simp [CacheManager.set_body_composition, Table_lookup_upsert]
  have hP : ∀ (now : Nat) (st : CacheManager.CacheState) (uid : String) (V : JVal),
      CacheManager.Table.lookup
          (CacheManager.set_user_profile now st V uid).user_profile_cache
          (CacheManager.generate_cache_key "profile" [("user_id", uid)]) =
        some ⟨V, now, now + st.ttl_hours * 7⟩ := by
    intro now st uid V
    simp [CacheManager.set_user_profile, Table_lookup_upsert]
  constructor
  · intro now st s e uid V
    exact ⟨hA now st s e V, hB now st s e V, hP now st uid V,
      Nat.le_add_right _ _, Nat.le_add_right _ _⟩
  · intro now st s e uid V hpos
    refine ⟨?_, ?_, ?_⟩
    · intro en hen
      rw [hA now st s e V] at hen
      cases hen
      exact Nat.lt_add_of_pos_right hpos
    · intro en hen
      rw [hB now st s e V] at hen
      cases hen
      exact Nat.lt_add_of_pos_right hpos
    · intro en hen
      rw [hP now st uid V] at hen
      cases hen
      exact Nat.lt_add_of_pos_right (by positivity)

/-- Witness for the amended C8 at TTL 2: the written entries and the
strict inequality at a concrete store. -/
theorem expires_at_ge_created_at_witness :
    (CacheManager.Table.lookup
        (CacheManager.set_activities 3 (CacheManager.init 2) "a" "b" JVal.null).activities_cache
        (CacheManager.generate_cache_key "activities"
          [("start_date", "a"), ("end_date", "b")]) =
      some ⟨JVal.null, 3, 3 + (CacheManager.init 2).ttl_hours⟩) ∧
    (∀ en, CacheManager.Table.lookup
        (CacheManager.set_activities 3 (CacheManager.init 2) "a" "b" JVal.null).activities_cache
        (CacheManager.generate_cache_key "activities"
          [("start_date", "a"), ("end_date", "b")]) = some en →
      en.created_at < en.expires_at) :=
  ⟨(expires_at_ge_created_at.1 3 (CacheManager.init 2) "a" "b" "u" JVal.null).1,
   ((expires_at_ge_created_at.2 3 (CacheManager.init 2) "a" "b" "u" JVal.null (by decide)).1)⟩

/-- Claim C6, evaluated at the failing input: for the mapping
`{"dateWeightList": []}` the known key IS present, yet the normalisation
falls through to the fallback (because `if not measurements` tests the
extracted value's truthiness, not whether a known key was found): it
returns the whole mapping wrapped as a one-element list and logs the
unknown-structure warning, instead of the unwrapped empty sequence. -/
theorem body_comp_unwrap_known_key_empty :
    GarminClient.bodyCompUnwrap (JVal.dict [("dateWeightList", JVal.list [])]) =
      Except.ok (JVal.list [JVal.dict [("dateWeightList", JVal.list [])]],
        [LogLevel.info, LogLevel.warning]) ∧
    JVal.list [JVal.dict [("dateWeightList", JVal.list [])]] ≠ JVal.list [] := by
  refine ⟨?_, by intro h; cases h⟩
  simp [GarminClient.bodyCompUnwrap, GarminClient.knownBodyCompKeys, JVal.truthy,
    JVal.hasLen, List.findSome?, List.find?]

/-- Claim C9 counterexample: `get_user_profile` invoked while no
connection is established returns the empty mapping but emits no log
line at all — in particular no error log, contrary to the claim that
every disconnected data-fetch logs an error. -/
theorem disconnected_profile_logs_nothing :
    (GarminClient.get_user_profile false true (some (CacheManager.init 24)) 0
      (Except.ok (JVal.dict [("name", JVal.str "n")]))).logs = [] ∧
    ¬ LogLevel.error ∈ (GarminClient.get_user_profile false true
      (some (CacheManager.init 24)) 0
      (Except.ok (JVal.dict [("name", JVal.str "n")]))).logs := by
  exact ⟨rfl, by decide⟩

/-- Claim C9 as amended: every data-fetch invoked while disconnected
returns its empty/neutral result without raising and without touching
the cache — the empty list for activities and body composition, each
with an error log; the empty mapping for the user profile, which logs
nothing on that path. -/
theorem disconnected_fetches_return_neutral
    (use_cache : Bool) (cache : Option CacheManager.CacheState) (now : Nat)
    (s e : String) (api : Nat → Except Unit JVal) (papi : Except Unit JVal) :
    GarminClient.get_activities false use_cache cache now s e api =
      ⟨cache, JVal.list [], 0, [LogLevel.error]⟩ ∧
    GarminClient.get_body_composition false use_cache cache now s e api =
      ⟨cache, JVal.list [], 0, [LogLevel.error]⟩ ∧
    GarminClient.get_user_profile false use_cache cache now papi =
      ⟨cache, JVal.dict [], 0, []⟩ := by
  refine ⟨?_, ?_, ?_⟩ <;>
    simp [GarminClient.get_activities, GarminClient.get_body_composition,
      GarminClient.get_user_profile]

/-- Claim C10: with a connected client and caching enabled, a fetch
whose key is absent from the cache and whose remote call succeeds with
an empty result writes nothing — the cache state is returned unchanged
after exactly one remote invocation — so an immediately repeated call
performs the remote fetch again; and a non-empty remote result IS
written to the cache.  Both for activities and body composition. -/
theorem empty_remote_results_not_cached :
    (∀ (cst : CacheManager.CacheState) (now : Nat) (s e : String),
       CacheManager.Table.lookup cst.activities_cache
         (CacheManager.generate_cache_key "activities"
           [("start_date", s), ("end_date", e)]) = none →
       GarminClient.get_activities true true (some cst) now s e
           (fun _ => Except.ok (JVal.list [])) =
         ⟨some cst, JVal.list [], 1, [LogLevel.info, LogLevel.info]⟩ ∧
       (GarminClient.get_activities true true
         (GarminClient.get_activities true true (some cst) now s e
           (fun _ => Except.ok (JVal.list []))).cache now s e
         (fun _ => Except.ok (JVal.list []))).apiCalls = 1) ∧
    (∀ (cst : CacheManager.CacheState) (now : Nat) (s e : String),
       CacheManager.Table.lookup cst.body_composition_cache
         (CacheManager.generate_cache_key "body_composition"
           [("start_date", s), ("end_date", e)]) = none →
       GarminClient.get_body_composition true true (some cst) now s e
           (fun _ => Except.ok (JVal.list [])) =
         ⟨some cst, JVal.list [], 1, [LogLevel.info, LogLevel.info]⟩) ∧
    (∀ (cst : CacheManager.CacheState) (now : Nat) (s e : String) (xs : List JVal),
       CacheManager.Table.lookup cst.activities_cache
         (CacheManager.generate_cache_key "activities"
           [("start_date", s), ("end_date", e)]) = none →
       xs ≠ [] →
       (GarminClient.get_activities true true (some cst) now s e
           (fun _ => Except.ok (JVal.list xs))).cache =
         some (CacheManager.set_activities now cst s e (JVal.list xs))) ∧
    (∀ (cst : CacheManager.CacheState) (now : Nat) (s e : String) (xs : List JVal),
       CacheManager.Table.lookup cst.body_composition_cache
         (CacheManager.generate_cache_key "body_composition"
           [("start_date", s), ("end_date", e)]) = none →
       xs ≠ [] →
       (GarminClient.get_body_composition true true (some cst) now s e
           (fun _ => Except.ok (JVal.list xs))).cache =
         some (CacheManager.set_body_composition now cst s e (JVal.list xs))) := by
  have hfirst : ∀ (cst : CacheManager.CacheState) (now : Nat) (s e : String),
      CacheManager.Table.lookup cst.activities_cache
        (CacheManager.generate_cache_key "activities"
          [("start_date", s), ("end_date", e)]) = none →
      GarminClient.get_activities true true (some cst) now s e
          (fun _ => Except.ok (JVal.list [])) =
        ⟨some cst, JVal.list [], 1, [LogLevel.info, LogLevel.info]⟩ := by
    intro cst now s e hmiss
    simp [GarminClient.get_activities, CacheManager.get_activities,
      CacheManager.Table.readValid, hmiss, GarminClient.fetchActivitiesRemote,
      GarminClient.retry_with_backoff, retryRun_succ, JVal.truthy]
  refine ⟨?_, ?_, ?_, ?_⟩
  · intro cst now s e hmiss
    refine ⟨hfirst cst now s e hmiss, ?_⟩
    rw [hfirst cst now s e hmiss]
    rw [hfirst cst now s e hmiss]
  · intro cst now s e hmiss
    simp [GarminClient.get_body_composition, CacheManager.get_body_composition,
      CacheManager.Table.readValid, hmiss, GarminClient.fetchBodyCompRemote,
      GarminClient.retry_with_backoff, retryRun_succ, GarminClient.bodyCompUnwrap,
      JVal.truthy]
  · intro cst now s e xs hmiss hxs
    simp [GarminClient.get_activities, CacheManager.get_activities,
      CacheManager.Table.readValid, hmiss, GarminClient.fetchActivitiesRemote,
      GarminClient.retry_with_backoff, retryRun_succ, JVal.truthy, hxs]
  · intro cst now s e xs hmiss hxs
    simp [GarminClient.get_body_composition, CacheManager.get_body_composition,
      CacheManager.Table.readValid, hmiss, GarminClient.fetchBodyCompRemote,
      GarminClient.retry_with_backoff, retryRun_succ, GarminClient.bodyCompUnwrap,
      JVal.truthy, hxs]

/-- Witness for C10 at the empty store: the empty remote result is not
cached and the repeat call hits the API again; a one-element result is
cached. -/
theorem empty_remote_results_not_cached_witness :
    (GarminClient.get_activities true true (some (CacheManager.init 24)) 0 "a" "b"
        (fun _ => Except.ok (JVal.list [])) =
      ⟨some (CacheManager.init 24), JVal.list [], 1, [LogLevel.info, LogLevel.info]⟩) ∧
    ((GarminClient.get_activities true true (some (CacheManager.init 24)) 0 "a" "b"
        (fun _ => Except.ok (JVal.list [JVal.num 1]))).cache =
      some (CacheManager.set_activities 0 (CacheManager.init 24) "a" "b"
        (JVal.list [JVal.num 1]))) :=
  ⟨((empty_remote_results_not_cached.1 (CacheManager.init 24) 0 "a" "b") rfl).1,
   (empty_remote_results_not_cached.2.2.1 (CacheManager.init 24) 0 "a" "b"
     [JVal.num 1] rfl (List.cons_ne_nil _ _))⟩
